import Mathlib

/-!
Verification of the OpenDataMCP provider modules (`src/odmcp/providers`).

Each namespace below shallowly embeds one provider module: pydantic input and
output models become Lean structures, the query-string and endpoint-URL
construction becomes pure string functions, and each fetch function is modelled
with the HTTP layer passed in explicitly (a mocked upstream response) so that
the requests a call issues can be observed and counted.  Pydantic validation of
argument mappings is embedded as an executable function from key-value mappings
to `Except`, following pydantic v2 default behaviour: unknown keys are ignored
(`extra='ignore'`), integer-shaped strings are coerced to ints (lax mode),
defaults fill absent fields without being re-validated, and errors from all
fields are collected (all-or-nothing validation).  Python `datetime` values are
modelled as their ISO timestamp strings and JSON floats as rationals.
-/

set_option maxRecDepth 10000

/-- Python scalar values as they appear in tool-call argument mappings and
pydantic `model_dump` output: `None`, booleans, integers and strings. -/
inductive PyVal where
  | vnone : PyVal
  | vbool : Bool → PyVal
  | vint : Int → PyVal
  | vstr : String → PyVal
deriving DecidableEq

/-- Whether a value is acceptable for an `Optional[str]` field: a string or
`None`.  Anything else is wrongly typed for such a field. -/
def PyVal.isStrOrNone : PyVal → Bool
  | PyVal.vnone => true
  | PyVal.vstr _ => true
  | _ => false

namespace Pydantic

/-- Per-field validation failures, mirroring pydantic error kinds. -/
inductive FieldErr where
  | missing : FieldErr
  | wrongType : FieldErr
  | outOfRange : FieldErr
deriving DecidableEq

/-- Tag a field-level result with its field name, so that the overall
`ValidationError` enumerates every violated field. -/
def vtag (name : String) : Except FieldErr α → Except (List (String × FieldErr)) α
  | .ok a => .ok a
  | .error e => .error [(name, e)]

/-- Combine two field results, concatenating error lists: validation is
all-or-nothing and collects every violation. -/
def vpair : Except (List E) α → Except (List E) β → Except (List E) (α × β)
  | .ok a, .ok b => .ok (a, b)
  | .error e1, .error e2 => .error (e1 ++ e2)
  | .error e1, .ok _ => .error e1
  | .ok _, .error e2 => .error e2

/-- Accumulate a run of decimal digits into a natural number; any non-digit
character fails. -/
def digitsAux : List Char → Nat → Option Nat
  | [], acc => some acc
  | c :: cs, acc =>
    if c.isDigit then digitsAux cs (acc * 10 + (c.toNat - 48)) else none

/-- Parse a decimal integer literal, optionally signed (Python `int(str)` on the
strings pydantic's lax mode accepts). -/
def decInt? (s : String) : Option Int :=
  match s.data with
  | [] => none
  | ['-'] => none
  | '-' :: cs => (digitsAux cs 0).map (fun k => -(k : Int))
  | cs => (digitsAux cs 0).map (fun k => (k : Int))

/-- Lax-mode conversion to `int`: integers pass through, integer-shaped strings
are coerced (pydantic v2 lax mode); anything else is a type error. -/
def asInt : PyVal → Except FieldErr Int
  | .vint n => .ok n
  | .vstr s =>
    match decInt? s with
    | some n => .ok n
    | none => .error .wrongType
  | _ => .error .wrongType

/-- An `Optional[str] = None` field: absent or `None` gives `None`, a string is
taken as is, anything else is a type error. -/
def optStrField (m : List (String × PyVal)) (name : String) : Except FieldErr (Option String) :=
  match m.lookup name with
  | none => .ok none
  | some .vnone => .ok none
  | some (.vstr s) => .ok (some s)
  | some _ => .error .wrongType

/-- An `int` field with a default and a bounds check (`ge`/`le`); the default is
used, unvalidated, when the key is absent (pydantic does not validate defaults by
default). -/
def intField (m : List (String × PyVal)) (name : String) (dflt : Int)
    (check : Int → Bool) : Except FieldErr Int :=
  match m.lookup name with
  | none => .ok dflt
  | some v =>
    match asInt v with
    | .error e => .error e
    | .ok n => if check n then .ok n else .error .outOfRange

/-- A `str` field with a default. -/
def strField (m : List (String × PyVal)) (name : String) (dflt : String) :
    Except FieldErr String :=
  match m.lookup name with
  | none => .ok dflt
  | some (.vstr s) => .ok s
  | some _ => .error .wrongType

/-- A `bool` field with a default. -/
def boolField (m : List (String × PyVal)) (name : String) (dflt : Bool) :
    Except FieldErr Bool :=
  match m.lookup name with
  | none => .ok dflt
  | some (.vbool b) => .ok b
  | some _ => .error .wrongType

/-- A required `str` field (declared with `Field(...)`), missing when absent. -/
def reqStrField (m : List (String × PyVal)) (name : String) : Except FieldErr String :=
  match m.lookup name with
  | none => .error .missing
  | some (.vstr s) => .ok s
  | some _ => .error .wrongType

/-- Python single quote, used by `repr` of strings. -/
def sq : String := String.singleton (Char.ofNat 39)

/-- Python `repr` of a plain string (escaping is not exercised here). -/
def pyStrRepr (s : String) : String := sq ++ s ++ sq

end Pydantic

/-- Python `str.rstrip("&")`: remove every trailing ampersand. -/
def rstripAmp (s : String) : String :=
  String.mk ((s.data.reverse.dropWhile (fun c => c == '&')).reverse)

/-- The space character (U+0020). -/
def spaceChar : Char := Char.ofNat 32

/-- A `types.TextContent` content item (only its text matters here). -/
structure TextContent where
  text : String
deriving DecidableEq

/-- Errors a handler call can surface: the `TypeError` Python raises when
`**arguments` unpacks `None`, or a pydantic `ValidationError` listing the
violated fields. -/
inductive PyErr where
  | typeErr : PyErr
  | validationErr : List (String × Pydantic.FieldErr) → PyErr
deriving DecidableEq

namespace Evcharge

/-- `BASE_URL` constant of `ch_evcharge.py`. -/
def BASE_URL : String := "http://ich-tanke-strom.switzerlandnorth.cloudapp.azure.com:8080/geoserver/ich-tanke-strom/ows?service=WFS&version=1.0.0&request=GetFeature&typeName=ich-tanke-strom"

/-- Input model `ChargingStationParams` of `ch_evcharge.py`: `limit` defaults to 3
and `test` defaults to a fixed `cql_filter` fragment. -/
structure ChargingStationParams where
  limit : Int := 3
  test : String := "&cql_filter=RenewableEnergy=true"
deriving DecidableEq

/-- Endpoint URL constructed by `fetch_endpoint_data` in `ch_evcharge.py` (lines
119-121): the base URL, a hard-coded `maxFeatures=10` and output-format fragment,
and `params.test` appended verbatim.  The `limit` field is never read. -/
def fetch_endpoint_url (params : ChargingStationParams) : String :=
  BASE_URL ++ "%3Aevse&maxFeatures=10&outputFormat=application%2Fjson" ++ params.test

end Evcharge

namespace Emissions

/-- `BASE_URL` constant of `glob_emissions.py`. -/
def BASE_URL : String := "https://www.climatewatchdata.org/api/v1/data/historical_emissions?regions=EUU&"

/-- Nested output model `YearlyEmissions`; the JSON `float` field `value` is
modelled as a rational number. -/
structure YearlyEmissions where
  year : Int
  value : Rat
deriving DecidableEq

/-- Output model `EndpointResult` of `glob_emissions.py`. -/
structure EndpointResult where
  id : Int
  iso_code3 : String
  country : String
  data_source : String
  sector : String
  gas : String
  unit : String
  emissions : List YearlyEmissions
deriving DecidableEq

/-- Output model `EndpointResponse` of `glob_emissions.py`: a single required
field `data`. -/
structure EndpointResponse where
  data : List EndpointResult
deriving DecidableEq

/-- Iterating a pydantic `BaseModel` yields its `(field name, field value)` pairs;
for `EndpointResponse` that is the single pair `("data", r.data)`.  This is what
`all_data.extend(EndpointResponse(**data))` appends on each loop iteration. -/
def EndpointResponse.iterPairs (r : EndpointResponse) : List (String × List EndpointResult) :=
  [("data", r.data)]

/-- A parsed upstream JSON page: the `data` field that `EndpointResponse(**data)`
validates, plus the pagination cursor read by `data.get("next")`. -/
structure Page where
  data : List EndpointResult
  next : Option String
deriving DecidableEq

/-- Input model `EndpointParams` of `glob_emissions.py`: two optional strings. -/
structure EndpointParams where
  start_year : Option String := none
  end_year : Option String := none
deriving DecidableEq

/-- Python truthiness of an `Optional[str]` value: `None` and `""` are falsy. -/
def optStrTruthy : Option String → Bool
  | none => false
  | some s => !(s == "")

/-- Endpoint string built by `fetch_endpoint_data` before the pagination loop
(`glob_emissions.py` lines 99-106). -/
def initialEndpoint (params : EndpointParams) : String :=
  let e := BASE_URL ++ "&"
  let e := if optStrTruthy params.start_year then
    e ++ "start_year=" ++ params.start_year.getD "" ++ "&" else e
  let e := if optStrTruthy params.end_year then
    e ++ "end_year=" ++ params.end_year.getD "" ++ "&" else e
  rstripAmp e

/-- The `while endpoint:` pagination loop of `fetch_endpoint_data`
(`glob_emissions.py` lines 107-119), with explicit fuel bounding the number of
iterations.  Returns the accumulated `all_data` list together with the number of
HTTP GET calls issued, or `none` if the loop does not finish within `fuel`
iterations.  The cursor is falsy when it is `None` or the empty string. -/
def fetchLoop (server : String → Page) :
    Nat → Option String → List (String × List EndpointResult) → Nat →
    Option (List (String × List EndpointResult) × Nat)
  | fuel, endpoint, all_data, calls =>
    match optStrTruthy endpoint, fuel with
    | false, _ => some (all_data, calls)
    | true, 0 => none
    | true, fuel' + 1 =>
      let page := server (endpoint.getD "")
      fetchLoop server fuel' page.next
        (all_data ++ EndpointResponse.iterPairs ⟨page.data⟩) (calls + 1)

/-- `fetch_endpoint_data` of `glob_emissions.py`: build the initial endpoint and
run the pagination loop with zero calls issued so far. -/
def fetch_endpoint_data (server : String → Page) (params : EndpointParams) (fuel : Nat) :
    Option (List (String × List EndpointResult) × Nat) :=
  fetchLoop server fuel (some (initialEndpoint params)) [] 0

/-- A synthetic result item for the three-page scenario. -/
def item (n : Int) : EndpointResult :=
  { id := n, iso_code3 := "EUU", country := "EU", data_source := "CAIT",
    sector := "Total", gas := "CO2", unit := "MtCO2e",
    emissions := [{ year := 2009, value := 1 }] }

/-- First synthetic page: two items and a `next` cursor. -/
def page1 : Page := { data := [item 1, item 2], next := some "https://example.org/page2" }

/-- Second synthetic page: one item and a `next` cursor. -/
def page2 : Page := { data := [item 3], next := some "https://example.org/page3" }

/-- Third synthetic page: one item and no `next` cursor. -/
def page3 : Page := { data := [item 4], next := none }

/-- Synthetic upstream server serving the three pages in order. -/
def server3 (url : String) : Page :=
  if url == "https://example.org/page2" then page2
  else if url == "https://example.org/page3" then page3
  else page1

end Emissions

namespace Sbb

/-- `BASE_URL` constant of `ch_sbb.py`. -/
def BASE_URL : String := "https://data.sbb.ch/api/explore/v2.1"

/-- Input model `TrafficInfoParams` of `ch_sbb.py` (lines 48-98): nine optional
strings, `limit` bounded to 1..100 with default 10, `offset` bounded below by 0
with default 0, a `timezone` default and two boolean flags. -/
structure TrafficInfoParams where
  select : Option String := none
  «where» : Option String := none
  group_by : Option String := none
  order_by : Option String := none
  limit : Int := 10
  offset : Int := 0
  refine : Option String := none
  exclude : Option String := none
  lang : Option String := none
  timezone : String := "UTC"
  include_links : Bool := false
  include_app_metas : Bool := false
deriving DecidableEq

/-- The `ge=1, le=100` bound on `limit`. -/
def limitCheck (n : Int) : Bool := decide (1 ≤ n) && decide (n ≤ 100)

/-- The `ge=0` bound on `offset`. -/
def offsetCheck (n : Int) : Bool := decide (0 ≤ n)

/-- Field-by-field pydantic validation of `TrafficInfoParams`, collecting every
violation; unknown keys in the mapping are ignored (pydantic default). -/
def trafficInfoFields (m : List (String × PyVal)) :
    Except (List (String × Pydantic.FieldErr))
      (Option String × Option String × Option String × Option String × Int × Int ×
       Option String × Option String × Option String × String × Bool × Bool) :=
  Pydantic.vpair (Pydantic.vtag "select" (Pydantic.optStrField m "select"))
    (Pydantic.vpair (Pydantic.vtag "where" (Pydantic.optStrField m "where"))
      (Pydantic.vpair (Pydantic.vtag "group_by" (Pydantic.optStrField m "group_by"))
        (Pydantic.vpair (Pydantic.vtag "order_by" (Pydantic.optStrField m "order_by"))
          (Pydantic.vpair (Pydantic.vtag "limit" (Pydantic.intField m "limit" 10 limitCheck))
            (Pydantic.vpair (Pydantic.vtag "offset" (Pydantic.intField m "offset" 0 offsetCheck))
              (Pydantic.vpair (Pydantic.vtag "refine" (Pydantic.optStrField m "refine"))
                (Pydantic.vpair (Pydantic.vtag "exclude" (Pydantic.optStrField m "exclude"))
                  (Pydantic.vpair (Pydantic.vtag "lang" (Pydantic.optStrField m "lang"))
                    (Pydantic.vpair (Pydantic.vtag "timezone" (Pydantic.strField m "timezone" "UTC"))
                      (Pydantic.vpair (Pydantic.vtag "include_links" (Pydantic.boolField m "include_links" false))
                        (Pydantic.vtag "include_app_metas" (Pydantic.boolField m "include_app_metas" false))))))))))))

/-- `TrafficInfoParams(**m)`: pydantic construction from a key-value mapping,
all-or-nothing — either a fully populated instance or a `ValidationError`
listing every violated field. -/
def validateTrafficInfoParams (m : List (String × PyVal)) :
    Except (List (String × Pydantic.FieldErr)) TrafficInfoParams :=
  match trafficInfoFields m with
  | .error errs => .error errs
  | .ok (sel, whr, grp, ord, lim, off, ref, exc, lng, tz, il, iam) =>
    .ok { select := sel, «where» := whr, group_by := grp, order_by := ord,
          limit := lim, offset := off, refine := ref, exclude := exc, lang := lng,
          timezone := tz, include_links := il, include_app_metas := iam }

/-- Output model `TrafficInfoResult` of `ch_sbb.py`; `datetime` fields are
modelled as ISO timestamp strings. -/
structure TrafficInfoResult where
  title : String
  link : String
  description : String
  published : String
  author : String
  validitybegin : String
  validityend : String
  description_html : String
deriving DecidableEq

/-- Output model `TrafficInfoResponse` of `ch_sbb.py`. -/
structure TrafficInfoResponse where
  total_count : Int
  results : List TrafficInfoResult
deriving DecidableEq

/-- Python `repr` of a `TrafficInfoResult` (pydantic model repr). -/
def TrafficInfoResult.pyRepr (r : TrafficInfoResult) : String :=
  "TrafficInfoResult(title=" ++ Pydantic.pyStrRepr r.title ++
  ", link=" ++ Pydantic.pyStrRepr r.link ++
  ", description=" ++ Pydantic.pyStrRepr r.description ++
  ", published=" ++ Pydantic.pyStrRepr r.published ++
  ", author=" ++ Pydantic.pyStrRepr r.author ++
  ", validitybegin=" ++ Pydantic.pyStrRepr r.validitybegin ++
  ", validityend=" ++ Pydantic.pyStrRepr r.validityend ++
  ", description_html=" ++ Pydantic.pyStrRepr r.description_html ++ ")"

/-- Python `str` of a `TrafficInfoResponse` (pydantic model rendering:
space-separated `field=value` pairs). -/
def renderTrafficInfoResponse (r : TrafficInfoResponse) : String :=
  "total_count=" ++ toString r.total_count ++ " results=[" ++
  String.intercalate ", " (r.results.map TrafficInfoResult.pyRepr) ++ "]"

/-- An outbound HTTP request: the method, the URL, and the query parameters
passed separately to `httpx.get` via `params=`. -/
structure Request where
  method : String
  url : String
  query : List (String × PyVal)
deriving DecidableEq

/-- `params.model_dump(exclude_none=True)` for `TrafficInfoParams`: the fields
in declaration order, skipping the optional fields that are `None`. -/
def TrafficInfoParams.model_dump (p : TrafficInfoParams) : List (String × PyVal) :=
  (match p.select with | none => [] | some s => [("select", PyVal.vstr s)]) ++
  (match p.«where» with | none => [] | some s => [("where", PyVal.vstr s)]) ++
  (match p.group_by with | none => [] | some s => [("group_by", PyVal.vstr s)]) ++
  (match p.order_by with | none => [] | some s => [("order_by", PyVal.vstr s)]) ++
  [("limit", PyVal.vint p.limit), ("offset", PyVal.vint p.offset)] ++
  (match p.refine with | none => [] | some s => [("refine", PyVal.vstr s)]) ++
  (match p.exclude with | none => [] | some s => [("exclude", PyVal.vstr s)]) ++
  (match p.lang with | none => [] | some s => [("lang", PyVal.vstr s)]) ++
  [("timezone", PyVal.vstr p.timezone),
   ("include_links", PyVal.vbool p.include_links),
   ("include_app_metas", PyVal.vbool p.include_app_metas)]

/-- `fetch_rail_traffic_info` (`ch_sbb.py` lines 117-134): one GET against the
records endpoint with the dumped params; the upstream body is modelled as the
already-parsed `TrafficInfoResponse` the mocked server would return. -/
def fetch_rail_traffic_info (server : TrafficInfoResponse) (params : TrafficInfoParams) :
    TrafficInfoResponse × List Request :=
  (server,
   [{ method := "GET",
      url := BASE_URL ++ "/catalog/datasets/rail-traffic-information/records",
      query := params.model_dump }])

/-- `handle_rail_traffic_info` (`ch_sbb.py` lines 138-146).  The argument mapping
is unpacked with `**arguments` directly — not `**(arguments or {})` — so when
`arguments` is `None`, Python raises `TypeError` before any validation runs;
otherwise pydantic validation runs, and on success exactly one fetch is issued
and its result rendered as a single text content item. -/
def handle_rail_traffic_info (server : TrafficInfoResponse)
    (arguments : Option (List (String × PyVal))) :
    Except PyErr (List TextContent) × List Request :=
  match arguments with
  | none => (.error .typeErr, [])
  | some m =>
    match validateTrafficInfoParams m with
    | .error errs => (.error (.validationErr errs), [])
    | .ok params =>
      let (resp, reqs) := fetch_rail_traffic_info server params
      (.ok [{ text := renderTrafficInfoResponse resp }], reqs)

/-- A mocked upstream response used to evaluate the handlers. -/
def mockResponse : TrafficInfoResponse := { total_count := 0, results := [] }

end Sbb

namespace Transit

/-- `BASE_URL` constant of `ch_public_transit.py`. -/
def BASE_URL : String := "http://transport.opendata.ch/v1/connections?"

/-- Input model `Public_TransitParams` of `ch_public_transit.py`: a required
`origin`, and `to` declared `str` with default `None` — effectively optional,
rendered through Python `str()` when absent. -/
structure Public_TransitParams where
  origin : String
  «to» : Option String := none
deriving DecidableEq

/-- A `str` field whose declared default is `None` (as `to` above): the
unvalidated default is used when absent, a supplied value must be a string. -/
def Pydantic.strFieldNoneDflt (m : List (String × PyVal)) (name : String) :
    Except Pydantic.FieldErr (Option String) :=
  match m.lookup name with
  | none => .ok none
  | some (.vstr s) => .ok (some s)
  | some _ => .error .wrongType

/-- `Public_TransitParams(**m)`: pydantic construction from a key-value
mapping. -/
def validatePublic_TransitParams (m : List (String × PyVal)) :
    Except (List (String × Pydantic.FieldErr)) Public_TransitParams :=
  match Pydantic.vpair (Pydantic.vtag "origin" (Pydantic.reqStrField m "origin"))
      (Pydantic.vtag "to" (Pydantic.strFieldNoneDflt m "to")) with
  | .error errs => .error errs
  | .ok (og, toV) => .ok { origin := og, «to» := toV }

/-- Python `str()` of the `to` field as the f-string renders it: `None` prints
as `None`. -/
def toText : Option String → String
  | none => "None"
  | some s => s

/-- Endpoint built by `fetch_transit_data` (`ch_public_transit.py` line 132):
plain f-string interpolation of the two field values into the URL, with no
percent-encoding performed by the module. -/
def transitEndpoint (params : Public_TransitParams) : String :=
  BASE_URL ++ "from=" ++ params.origin ++ "&to=" ++ toText params.«to»

/-- JSON values, as `response.json()` returns them (numbers restricted to the
integers the transit schema uses). -/
inductive Json where
  | null : Json
  | jbool : Bool → Json
  | jint : Int → Json
  | jstr : String → Json
  | jarr : List Json → Json
  | jobj : List (String × Json) → Json

/-- Response model `Location`. -/
structure Location where
  id : String
  name : String
deriving DecidableEq

/-- Response model `Stop`: optional timing fields default to `None`. -/
structure Stop where
  station : Location
  arrival : Option String := none
  departure : Option String := none
  delay : Option Int := none
deriving DecidableEq

/-- Response model `Departure`. -/
structure Departure where
  station : Location
  departure : String
  platform : String
deriving DecidableEq

/-- Response model `Arrival`. -/
structure Arrival where
  station : Location
  arrival : String
  platform : String
deriving DecidableEq

/-- Response model `Route`. -/
structure Route where
  name : String
  category : String
  number : String
  operator : String
  «to» : String
  passList : List Stop
deriving DecidableEq

/-- Response model `TransitOption`. -/
structure TransitOption where
  journey : Route
deriving DecidableEq

/-- Response model `PublicTransitResult`; the JSON keys for `start` and `to` are
the aliases `from` and `to`. -/
structure PublicTransitResult where
  start : Departure
  «to» : Arrival
  duration : String
  transfers : Int
  sections : List TransitOption
deriving DecidableEq

/-- Response model `Public_TransitResponse`: the single required field
`connections`. -/
structure Public_TransitResponse where
  connections : List PublicTransitResult
deriving DecidableEq

/-- Required string field of a JSON object; the error names the field. -/
def jString (kvs : List (String × Json)) (name : String) : Except String String :=
  match kvs.lookup name with
  | some (Json.jstr s) => .ok s
  | some _ => .error name
  | none => .error name

/-- Required integer field of a JSON object. -/
def jIntF (kvs : List (String × Json)) (name : String) : Except String Int :=
  match kvs.lookup name with
  | some (Json.jint n) => .ok n
  | some _ => .error name
  | none => .error name

/-- Optional string field: absent or `null` parses to `None`. -/
def jOptStr (kvs : List (String × Json)) (name : String) : Except String (Option String) :=
  match kvs.lookup name with
  | none => .ok none
  | some Json.null => .ok none
  | some (Json.jstr s) => .ok (some s)
  | some _ => .error name

/-- Optional integer field: absent or `null` parses to `None`. -/
def jOptInt (kvs : List (String × Json)) (name : String) : Except String (Option Int) :=
  match kvs.lookup name with
  | none => .ok none
  | some Json.null => .ok none
  | some (Json.jint n) => .ok (some n)
  | some _ => .error name

/-- Parse every element of a JSON array, failing on the first offending
element. -/
def parseList (p : Json → Except String α) : List Json → Except String (List α)
  | [] => .ok []
  | j :: js =>
    match p j, parseList p js with
    | .ok a, .ok as => .ok (a :: as)
    | .error e, _ => .error e
    | .ok _, .error e => .error e

/-- Required list field of a JSON object, each element parsed by `p`. -/
def jListF (p : Json → Except String α) (kvs : List (String × Json)) (name : String) :
    Except String (List α) :=
  match kvs.lookup name with
  | some (Json.jarr xs) => parseList p xs
  | some _ => .error name
  | none => .error name

/-- Required nested-model field of a JSON object, parsed by `p`; an absent field
is reported under its own name. -/
def jNested (p : Json → Except String α) (kvs : List (String × Json)) (name : String) :
    Except String α :=
  match kvs.lookup name with
  | some j => p j
  | none => .error name

/-- Pydantic validation of a `Location` value: the required fields are checked
one after the other and the first violation is reported. -/
def parseLocation : Json → Except String Location
  | Json.jobj kvs => do
    let i ← jString kvs "id"
    let n ← jString kvs "name"
    .ok { id := i, name := n }
  | _ => .error "Location"

/-- Pydantic validation of a `Stop` value. -/
def parseStop : Json → Except String Stop
  | Json.jobj kvs => do
    let st ← jNested parseLocation kvs "station"
    let arr ← jOptStr kvs "arrival"
    let dep ← jOptStr kvs "departure"
    let del ← jOptInt kvs "delay"
    .ok { station := st, arrival := arr, departure := dep, delay := del }
  | _ => .error "Stop"

/-- Pydantic validation of a `Departure` value. -/
def parseDeparture : Json → Except String Departure
  | Json.jobj kvs => do
    let st ← jNested parseLocation kvs "station"
    let dep ← jString kvs "departure"
    let pf ← jString kvs "platform"
    .ok { station := st, departure := dep, platform := pf }
  | _ => .error "Departure"

/-- Pydantic validation of an `Arrival` value. -/
def parseArrival : Json → Except String Arrival
  | Json.jobj kvs => do
    let st ← jNested parseLocation kvs "station"
    let arr ← jString kvs "arrival"
    let pf ← jString kvs "platform"
    .ok { station := st, arrival := arr, platform := pf }
  | _ => .error "Arrival"

/-- Pydantic validation of a `Route` value. -/
def parseRoute : Json → Except String Route
  | Json.jobj kvs => do
    let n ← jString kvs "name"
    let c ← jString kvs "category"
    let nb ← jString kvs "number"
    let op ← jString kvs "operator"
    let t ← jString kvs "to"
    let pl ← jListF parseStop kvs "passList"
    .ok { name := n, category := c, number := nb, operator := op, «to» := t, passList := pl }
  | _ => .error "Route"

/-- Pydantic validation of a `TransitOption` value. -/
def parseTransitOption : Json → Except String TransitOption
  | Json.jobj kvs => do
    let r ← jNested parseRoute kvs "journey"
    .ok { journey := r }
  | _ => .error "TransitOption"

/-- Pydantic validation of a `PublicTransitResult` value; `start` and `to` are
populated from their aliases `from` and `to`. -/
def parsePublicTransitResult : Json → Except String PublicTransitResult
  | Json.jobj kvs => do
    let st ← jNested parseDeparture kvs "from"
    let t ← jNested parseArrival kvs "to"
    let d ← jString kvs "duration"
    let tr ← jIntF kvs "transfers"
    let sec ← jListF parseTransitOption kvs "sections"
    .ok { start := st, «to» := t, duration := d, transfers := tr, sections := sec }
  | _ => .error "PublicTransitResult"

/-- `Public_TransitResponse(**response.json())`: the required `connections`
field, each element validated. -/
def parsePublic_TransitResponse : Json → Except String Public_TransitResponse
  | Json.jobj kvs => do
    let cs ← jListF parsePublicTransitResult kvs "connections"
    .ok { connections := cs }
  | _ => .error "Public_TransitResponse"

/-- JSON form of a `Location`. -/
def locationToJson (l : Location) : Json :=
  Json.jobj [("id", Json.jstr l.id), ("name", Json.jstr l.name)]

/-- JSON form of an optional string (absent values serialised as `null`). -/
def optStrToJson : Option String → Json
  | none => Json.null
  | some s => Json.jstr s

/-- JSON form of an optional integer. -/
def optIntToJson : Option Int → Json
  | none => Json.null
  | some n => Json.jint n

/-- JSON form of a `Stop`. -/
def stopToJson (s : Stop) : Json :=
  Json.jobj [("station", locationToJson s.station), ("arrival", optStrToJson s.arrival),
             ("departure", optStrToJson s.departure), ("delay", optIntToJson s.delay)]

/-- JSON form of a `Departure`. -/
def departureToJson (d : Departure) : Json :=
  Json.jobj [("station", locationToJson d.station), ("departure", Json.jstr d.departure),
             ("platform", Json.jstr d.platform)]

/-- JSON form of an `Arrival`. -/
def arrivalToJson (a : Arrival) : Json :=
  Json.jobj [("station", locationToJson a.station), ("arrival", Json.jstr a.arrival),
             ("platform", Json.jstr a.platform)]

/-- JSON form of a `Route`. -/
def routeToJson (r : Route) : Json :=
  Json.jobj [("name", Json.jstr r.name), ("category", Json.jstr r.category),
             ("number", Json.jstr r.number), ("operator", Json.jstr r.operator),
             ("to", Json.jstr r.«to»), ("passList", Json.jarr (r.passList.map stopToJson))]

/-- JSON form of a `TransitOption`. -/
def transitOptionToJson (t : TransitOption) : Json :=
  Json.jobj [("journey", routeToJson t.journey)]

/-- JSON form of a `PublicTransitResult`, using the wire aliases `from` and
`to`. -/
def publicTransitResultToJson (r : PublicTransitResult) : Json :=
  Json.jobj [("from", departureToJson r.start), ("to", arrivalToJson r.«to»),
             ("duration", Json.jstr r.duration), ("transfers", Json.jint r.transfers),
             ("sections", Json.jarr (r.sections.map transitOptionToJson))]

/-- JSON form of a `Public_TransitResponse`: a JSON object exactly matching the
Response Schema. -/
def responseToJson (r : Public_TransitResponse) : Json :=
  Json.jobj [("connections", Json.jarr (r.connections.map publicTransitResultToJson))]

/-- Python `repr` of an optional string. -/
def reprOptStr : Option String → String
  | none => "None"
  | some s => Pydantic.pyStrRepr s

/-- Python `repr` of an optional integer. -/
def reprOptInt : Option Int → String
  | none => "None"
  | some n => toString n

/-- Python `repr` of a `Location`. -/
def Location.pyRepr (l : Location) : String :=
  "Location(id=" ++ Pydantic.pyStrRepr l.id ++ ", name=" ++ Pydantic.pyStrRepr l.name ++ ")"

/-- Python `repr` of a `Stop`. -/
def Stop.pyRepr (s : Stop) : String :=
  "Stop(station=" ++ s.station.pyRepr ++ ", arrival=" ++ reprOptStr s.arrival ++
  ", departure=" ++ reprOptStr s.departure ++ ", delay=" ++ reprOptInt s.delay ++ ")"

/-- Python `repr` of a `Departure`. -/
def Departure.pyRepr (d : Departure) : String :=
  "Departure(station=" ++ d.station.pyRepr ++ ", departure=" ++ Pydantic.pyStrRepr d.departure ++
  ", platform=" ++ Pydantic.pyStrRepr d.platform ++ ")"

/-- Python `repr` of an `Arrival`. -/
def Arrival.pyRepr (a : Arrival) : String :=
  "Arrival(station=" ++ a.station.pyRepr ++ ", arrival=" ++ Pydantic.pyStrRepr a.arrival ++
  ", platform=" ++ Pydantic.pyStrRepr a.platform ++ ")"

/-- Python `repr` of a `Route`. -/
def Route.pyRepr (r : Route) : String :=
  "Route(name=" ++ Pydantic.pyStrRepr r.name ++ ", category=" ++ Pydantic.pyStrRepr r.category ++
  ", number=" ++ Pydantic.pyStrRepr r.number ++ ", operator=" ++ Pydantic.pyStrRepr r.operator ++
  ", to=" ++ Pydantic.pyStrRepr r.«to» ++ ", passList=[" ++
  String.intercalate ", " (r.passList.map Stop.pyRepr) ++ "])"

/-- Python `repr` of a `TransitOption`. -/
def TransitOption.pyRepr (t : TransitOption) : String :=
  "TransitOption(journey=" ++ t.journey.pyRepr ++ ")"

/-- Python `repr` of a `PublicTransitResult`. -/
def PublicTransitResult.pyRepr (r : PublicTransitResult) : String :=
  "PublicTransitResult(start=" ++ r.start.pyRepr ++ ", to=" ++ r.«to».pyRepr ++
  ", duration=" ++ Pydantic.pyStrRepr r.duration ++ ", transfers=" ++ toString r.transfers ++
  ", sections=[" ++ String.intercalate ", " (r.sections.map TransitOption.pyRepr) ++ "])"

/-- Python `str()` of a `Public_TransitResponse` (pydantic rendering). -/
def renderPublic_TransitResponse (r : Public_TransitResponse) : String :=
  "connections=[" ++ String.intercalate ", " (r.connections.map PublicTransitResult.pyRepr) ++ "]"

/-- An outbound HTTP request of the transit provider (method and full URL). -/
structure Request where
  method : String
  url : String
deriving DecidableEq

/-- `fetch_transit_data` (`ch_public_transit.py` lines 119-135): build the
endpoint by f-string interpolation, issue exactly one GET, and validate the JSON
body (the mocked upstream body is `server`). -/
def fetch_transit_data (server : Json) (params : Public_TransitParams) :
    Except String Public_TransitResponse × List Request :=
  (parsePublic_TransitResponse server,
   [{ method := "GET", url := transitEndpoint params }])

/-- Errors surfaced by the transit handler. -/
inductive TransitErr where
  | validationErr : List (String × Pydantic.FieldErr) → TransitErr
  | parseErr : String → TransitErr
deriving DecidableEq

/-- `handle_transitdata` (`ch_public_transit.py` lines 139-159): `arguments or
{}` treats `None` as the empty mapping; validation, then the fetch, then a
single text content item with the `str()` rendering of the response. -/
def handle_transitdata (server : Json) (arguments : Option (List (String × PyVal))) :
    Except TransitErr (List TextContent) × List Request :=
  let m := arguments.getD []
  match validatePublic_TransitParams m with
  | .error errs => (.error (.validationErr errs), [])
  | .ok params =>
    let (res, reqs) := fetch_transit_data server params
    match res with
    | .error e => (.error (.parseErr e), reqs)
    | .ok resp => (.ok [{ text := renderPublic_TransitResponse resp }], reqs)

/-- UTF-8 bytes of a character, by the standard arithmetic. -/
def utf8Bytes (c : Char) : List Nat :=
  let n := c.toNat
  if n < 128 then [n]
  else if n < 2048 then [192 + n / 64, 128 + n % 64]
  else if n < 65536 then [224 + n / 4096, 128 + (n / 64) % 64, 128 + n % 64]
  else [240 + n / 262144, 128 + (n / 4096) % 64, 128 + (n / 64) % 64, 128 + n % 64]

/-- Hexadecimal digit (uppercase). -/
def hexDigit (n : Nat) : Char :=
  if n < 10 then Char.ofNat (48 + n) else Char.ofNat (55 + n)

/-- Modelled from the spec: percent-encoding of a single byte, keeping RFC 3986
unreserved characters (letters, digits, `-`, `.`, `_`, `~`) and escaping every
other byte.  This is the spec-side definition of "URL-encoded (reserved
characters percent-encoded)", written to be compared with the source-side
`transitEndpoint`, which performs no encoding. -/
def specUrlEncodeByte (b : Nat) : String :=
  if (65 ≤ b ∧ b ≤ 90) ∨ (97 ≤ b ∧ b ≤ 122) ∨ (48 ≤ b ∧ b ≤ 57) ∨
      b = 45 ∨ b = 46 ∨ b = 95 ∨ b = 126 then
    String.singleton (Char.ofNat b)
  else
    "%" ++ String.singleton (hexDigit (b / 16)) ++ String.singleton (hexDigit (b % 16))

/-- Modelled from the spec: percent-encoding of a string (UTF-8 bytes escaped
byte by byte). -/
def specUrlEncode (s : String) : String :=
  String.join (s.data.map (fun c => String.join ((utf8Bytes c).map specUrlEncodeByte)))

/-- Sample stations for the round-trip witness input. -/
def zhb : Location := { id := "8503000", name := "Zürich HB" }

/-- Sample destination station. -/
def bsl : Location := { id := "8500010", name := "Basel SBB" }

/-- Sample route with a fully populated pass list. -/
def sampleRoute : Route :=
  { name := "IC 6", category := "IC", number := "6", operator := "SBB",
    «to» := "Basel SBB",
    passList := [
      { station := zhb, arrival := none, departure := some "08:00", delay := some 0 },
      { station := bsl, arrival := some "09:00", departure := none, delay := none }] }

/-- Sample connection exercising every nested model. -/
def sampleResult : PublicTransitResult :=
  { start := { station := zhb, departure := "2024-01-01T08:00:00", platform := "13" },
    «to» := { station := bsl, arrival := "2024-01-01T09:00:00", platform := "7" },
    duration := "01:00:00",
    transfers := 0,
    sections := [{ journey := sampleRoute }] }

/-- A fully nested sample response used as the round-trip witness input. -/
def sampleResponse : Public_TransitResponse := { connections := [sampleResult] }

end Transit

namespace Personal

/-- `BASE_URL` constant of `glob_personal_data.py`. -/
def BASE_URL : String := "https://api.apollo.io/api/v1/mixed_people/search"

/-- Input model `EndpointParams` of `glob_personal_data.py` (lines 59-91):
eight optional string-list fields, an optional keyword string, `page` defaulting
to 1, and an optional page size. -/
structure EndpointParams where
  person_titles : Option (List String) := none
  person_locations : Option (List String) := none
  person_seniorities : Option (List String) := none
  organization_locations : Option (List String) := none
  q_organization_domains : Option (List String) := none
  contact_email_status : Option (List String) := none
  organization_ids : Option (List String) := none
  organization_num_employees_ranges : Option (List String) := none
  q_keywords : Option String := none
  page : Option Int := some 1
  per_page : Option Int := none
deriving DecidableEq

/-- Values appearing in `model_dump(exclude_none=True)` output for this model:
strings, integers, and lists of strings. -/
inductive DumpVal where
  | dstr : String → DumpVal
  | dint : Int → DumpVal
  | dlist : List String → DumpVal
deriving DecidableEq

/-- One `model_dump` entry for an optional field: omitted when `None`. -/
def optEntry (name : String) (f : α → DumpVal) : Option α → List (String × DumpVal)
  | none => []
  | some x => [(name, f x)]

/-- `params.model_dump(exclude_none=True)` (line 245): the fields in declaration
order, omitting the `None` ones. -/
def model_dump (p : EndpointParams) : List (String × DumpVal) :=
  optEntry "person_titles" DumpVal.dlist p.person_titles ++
  optEntry "person_locations" DumpVal.dlist p.person_locations ++
  optEntry "person_seniorities" DumpVal.dlist p.person_seniorities ++
  optEntry "organization_locations" DumpVal.dlist p.organization_locations ++
  optEntry "q_organization_domains" DumpVal.dlist p.q_organization_domains ++
  optEntry "contact_email_status" DumpVal.dlist p.contact_email_status ++
  optEntry "organization_ids" DumpVal.dlist p.organization_ids ++
  optEntry "organization_num_employees_ranges" DumpVal.dlist p.organization_num_employees_ranges ++
  optEntry "q_keywords" DumpVal.dstr p.q_keywords ++
  optEntry "page" DumpVal.dint p.page ++
  optEntry "per_page" DumpVal.dint p.per_page

/-- Python `.replace(' ', '%20')` (lines 252 and 254): every space character is
replaced by `%20`. -/
def encodeSpaces (s : String) : String :=
  String.mk (s.data.foldr
    (fun c acc => if c = spaceChar then '%' :: '2' :: '0' :: acc else c :: acc) [])

/-- The query-string fragments one `params_dict` item appends
(`glob_personal_data.py` lines 249-254): one `key[]=item&` fragment per element
of a list value, a single `key=str(value)&` fragment for a scalar value. -/
def queryItem : String × DumpVal → List String
  | (key, DumpVal.dlist xs) => xs.map (fun it => key ++ "[]=" ++ encodeSpaces it ++ "&")
  | (key, DumpVal.dstr s) => [key ++ "=" ++ encodeSpaces s ++ "&"]
  | (key, DumpVal.dint n) => [key ++ "=" ++ encodeSpaces (toString n) ++ "&"]

/-- All fragments of the constructed query string, in loop order. -/
def querySegments (p : EndpointParams) : List String :=
  (model_dump p).flatMap queryItem

/-- `query_string` as built by the `for key, value in params_dict.items()` loop
(lines 248-254): the concatenation of all fragments. -/
def query_string (p : EndpointParams) : String :=
  (querySegments p).foldl (fun acc s => acc ++ s) ""

/-- The final endpoint URL (lines 256-258): `?` plus the query string with
trailing ampersands stripped, appended only when the query string is
nonempty. -/
def endpointUrl (p : EndpointParams) : String :=
  if query_string p = "" then BASE_URL
  else BASE_URL ++ "?" ++ rstripAmp (query_string p)

/-- The outbound request `httpx.post(endpoint, headers=headers)` issues (line
259): a POST to the endpoint URL, carrying no request body (the static headers,
including the API key from the environment, are not modelled). -/
structure Request where
  method : String
  url : String
  body : Option String
deriving DecidableEq

/-- The single request `fetch_endpoint_data` issues for a validated parameter
object. -/
def fetch_request (p : EndpointParams) : Request :=
  { method := "POST", url := endpointUrl p, body := none }

/-- Whether a fragment carries the repeated-list key of `k`, i.e. starts with
`k[]=`. -/
def segHasKey (k : String) (s : String) : Bool :=
  (k ++ "[]=").data.isPrefixOf s.data

/-- Sample parameters for the POST-body counterexample: one list field set,
`page` explicitly `None`. -/
def sampleParams : EndpointParams :=
  { person_titles := some ["software engineer"], page := none }

end Personal

/-!
Theorems.  Helper lemmas first, then one theorem per claim (with witnesses for
theorems carrying hypotheses).
-/

theorem Pydantic.vpair_ok {r : Except (List E) α} {s : Except (List E) β} {a : α} {b : β}
    (h : Pydantic.vpair r s = .ok (a, b)) : r = .ok a ∧ s = .ok b := by
  cases r <;> cases s <;> simp_all [Pydantic.vpair]

theorem Pydantic.vpair_error_left {r : Except (List E) α} {s : Except (List E) β} {e : List E}
    (h : r = .error e) : ∃ e', Pydantic.vpair r s = .error e' := by
  cases s <;> simp_all [Pydantic.vpair]

theorem Pydantic.vpair_error_right {r : Except (List E) α} {s : Except (List E) β} {e : List E}
    (h : s = .error e) : ∃ e', Pydantic.vpair r s = .error e' := by
  cases r <;> simp_all [Pydantic.vpair]

theorem Pydantic.vpair_error_left_mem {r : Except (List E) α} {s : Except (List E) β}
    {e : List E} (h : r = .error e) :
    ∃ e', Pydantic.vpair r s = .error e' ∧ e ⊆ e' := by
  subst h
  cases s with
  | ok b => exact ⟨e, rfl, List.Subset.refl e⟩
  | error e2 => exact ⟨e ++ e2, rfl, List.subset_append_left e e2⟩

theorem Pydantic.vpair_error_right_mem {r : Except (List E) α} {s : Except (List E) β}
    {e : List E} (h : s = .error e) :
    ∃ e', Pydantic.vpair r s = .error e' ∧ e ⊆ e' := by
  subst h
  cases r with
  | ok a => exact ⟨e, rfl, List.Subset.refl e⟩
  | error e1 => exact ⟨e1 ++ e, rfl, List.subset_append_right e1 e⟩

theorem Pydantic.intField_ok {m : List (String × PyVal)} {name : String} {dflt : Int}
    {check : Int → Bool} {n : Int} (h : Pydantic.intField m name dflt check = .ok n) :
    check n = true ∨ n = dflt := by
  unfold Pydantic.intField at h
  cases hl : m.lookup name with
  | none => simp [hl] at h; right; omega
  | some v =>
    simp only [hl] at h
    cases ha : Pydantic.asInt v with
    | error e => simp [ha] at h
    | ok k =>
      simp only [ha] at h
      cases hc : check k with
      | true => simp [hc] at h; subst h; exact Or.inl hc
      | false => simp [hc] at h

theorem Sbb.trafficInfoFields_limit_error {m : List (String × PyVal)} {n : Int}
    (h1 : m.lookup "limit" = some (PyVal.vint n)) (h2 : n < 1 ∨ 100 < n) :
    ∃ e, Sbb.trafficInfoFields m = .error e := by
  have hlim : Pydantic.intField m "limit" 10 Sbb.limitCheck = .error .outOfRange := by
    have hc : Sbb.limitCheck n = false := by
      rcases h2 with h2 | h2 <;> simp [Sbb.limitCheck] <;> omega
    simp [Pydantic.intField, h1, Pydantic.asInt, hc]
  have htag : Pydantic.vtag "limit" (Pydantic.intField m "limit" 10 Sbb.limitCheck) =
      .error [("limit", Pydantic.FieldErr.outOfRange)] := by
    rw [hlim]; rfl
  obtain ⟨e5, h5⟩ := Pydantic.vpair_error_left
    (s := Pydantic.vpair (Pydantic.vtag "offset" (Pydantic.intField m "offset" 0 Sbb.offsetCheck))
      (Pydantic.vpair (Pydantic.vtag "refine" (Pydantic.optStrField m "refine"))
        (Pydantic.vpair (Pydantic.vtag "exclude" (Pydantic.optStrField m "exclude"))
          (Pydantic.vpair (Pydantic.vtag "lang" (Pydantic.optStrField m "lang"))
            (Pydantic.vpair (Pydantic.vtag "timezone" (Pydantic.strField m "timezone" "UTC"))
              (Pydantic.vpair (Pydantic.vtag "include_links" (Pydantic.boolField m "include_links" false))
                (Pydantic.vtag "include_app_metas" (Pydantic.boolField m "include_app_metas" false)))))))) htag
  obtain ⟨e4, h4⟩ := Pydantic.vpair_error_right
    (r := Pydantic.vtag "order_by" (Pydantic.optStrField m "order_by")) h5
  obtain ⟨e3, h3⟩ := Pydantic.vpair_error_right
    (r := Pydantic.vtag "group_by" (Pydantic.optStrField m "group_by")) h4
  obtain ⟨e2, h2'⟩ := Pydantic.vpair_error_right
    (r := Pydantic.vtag "where" (Pydantic.optStrField m "where")) h3
  obtain ⟨e1, h1'⟩ := Pydantic.vpair_error_right
    (r := Pydantic.vtag "select" (Pydantic.optStrField m "select")) h2'
  exact ⟨e1, h1'⟩

theorem Sbb.validate_ok_bounds {m : List (String × PyVal)} {p : Sbb.TrafficInfoParams}
    (h : Sbb.validateTrafficInfoParams m = .ok p) :
    (1 ≤ p.limit ∧ p.limit ≤ 100) ∧ 0 ≤ p.offset := by
  unfold Sbb.validateTrafficInfoParams at h
  cases hf : Sbb.trafficInfoFields m with
  | error e => rw [hf] at h; exact absurd h (by simp)
  | ok t =>
    rw [hf] at h
    obtain ⟨sel, whr, grp, ord, lim, off, ref, exc, lng, tz, il, iam⟩ := t
    simp only [] at h
    unfold Sbb.trafficInfoFields at hf
    obtain ⟨-, hf⟩ := Pydantic.vpair_ok hf
    obtain ⟨-, hf⟩ := Pydantic.vpair_ok hf
    obtain ⟨-, hf⟩ := Pydantic.vpair_ok hf
    obtain ⟨-, hf⟩ := Pydantic.vpair_ok hf
    obtain ⟨hlim, hf⟩ := Pydantic.vpair_ok hf
    obtain ⟨hoff, -⟩ := Pydantic.vpair_ok hf
    have hlim' : Pydantic.intField m "limit" 10 Sbb.limitCheck = .ok lim := by
      revert hlim
      cases Pydantic.intField m "limit" 10 Sbb.limitCheck <;> simp [Pydantic.vtag]
    have hoff' : Pydantic.intField m "offset" 0 Sbb.offsetCheck = .ok off := by
      revert hoff
      cases Pydantic.intField m "offset" 0 Sbb.offsetCheck <;> simp [Pydantic.vtag]
    have hl := Pydantic.intField_ok hlim'
    have ho := Pydantic.intField_ok hoff'
    have hp := Except.ok.inj h
    subst hp
    have hbl : 1 ≤ lim ∧ lim ≤ 100 := by
      rcases hl with hl | hl
      · simp [Sbb.limitCheck] at hl; omega
      · omega
    have hbo : 0 ≤ off := by
      rcases ho with ho | ho
      · simp [Sbb.offsetCheck] at ho; omega
      · omega
    exact ⟨hbl, hbo⟩

theorem Sbb.limit_tag_error {m : List (String × PyVal)} {n : Int}
    (h1 : m.lookup "limit" = some (PyVal.vint n)) (h2 : n < 1 ∨ 100 < n) :
    Pydantic.vtag "limit" (Pydantic.intField m "limit" 10 Sbb.limitCheck) =
      .error [("limit", Pydantic.FieldErr.outOfRange)] := by
  have hc : Sbb.limitCheck n = false := by
    rcases h2 with h2 | h2 <;> simp [Sbb.limitCheck] <;> omega
  have hlim : Pydantic.intField m "limit" 10 Sbb.limitCheck = .error .outOfRange := by
    simp [Pydantic.intField, h1, Pydantic.asInt, hc]
  rw [hlim]; rfl

theorem Sbb.select_tag_error {m : List (String × PyVal)} {v : PyVal}
    (h1 : m.lookup "select" = some v) (h2 : PyVal.isStrOrNone v = false) :
    Pydantic.vtag "select" (Pydantic.optStrField m "select") =
      .error [("select", Pydantic.FieldErr.wrongType)] := by
  have hsel : Pydantic.optStrField m "select" = .error .wrongType := by
    cases v with
    | vnone => simp [PyVal.isStrOrNone] at h2
    | vstr s => simp [PyVal.isStrOrNone] at h2
    | vbool b => simp [Pydantic.optStrField, h1]
    | vint k => simp [Pydantic.optStrField, h1]
  rw [hsel]; rfl

theorem Sbb.whereChain_limit_error_mem {m : List (String × PyVal)} {n : Int}
    (h1 : m.lookup "limit" = some (PyVal.vint n)) (h2 : n < 1 ∨ 100 < n) :
    ∃ e, Pydantic.vpair (Pydantic.vtag "where" (Pydantic.optStrField m "where"))
      (Pydantic.vpair (Pydantic.vtag "group_by" (Pydantic.optStrField m "group_by"))
        (Pydantic.vpair (Pydantic.vtag "order_by" (Pydantic.optStrField m "order_by"))
          (Pydantic.vpair (Pydantic.vtag "limit" (Pydantic.intField m "limit" 10 Sbb.limitCheck))
            (Pydantic.vpair (Pydantic.vtag "offset" (Pydantic.intField m "offset" 0 Sbb.offsetCheck))
              (Pydantic.vpair (Pydantic.vtag "refine" (Pydantic.optStrField m "refine"))
                (Pydantic.vpair (Pydantic.vtag "exclude" (Pydantic.optStrField m "exclude"))
                  (Pydantic.vpair (Pydantic.vtag "lang" (Pydantic.optStrField m "lang"))
                    (Pydantic.vpair (Pydantic.vtag "timezone" (Pydantic.strField m "timezone" "UTC"))
                      (Pydantic.vpair (Pydantic.vtag "include_links" (Pydantic.boolField m "include_links" false))
                        (Pydantic.vtag "include_app_metas" (Pydantic.boolField m "include_app_metas" false)))))))))))
      = .error e ∧ ("limit", Pydantic.FieldErr.outOfRange) ∈ e := by
  obtain ⟨e5, h5, m5⟩ := Pydantic.vpair_error_left_mem
    (s := Pydantic.vpair (Pydantic.vtag "offset" (Pydantic.intField m "offset" 0 Sbb.offsetCheck))
      (Pydantic.vpair (Pydantic.vtag "refine" (Pydantic.optStrField m "refine"))
        (Pydantic.vpair (Pydantic.vtag "exclude" (Pydantic.optStrField m "exclude"))
          (Pydantic.vpair (Pydantic.vtag "lang" (Pydantic.optStrField m "lang"))
            (Pydantic.vpair (Pydantic.vtag "timezone" (Pydantic.strField m "timezone" "UTC"))
              (Pydantic.vpair (Pydantic.vtag "include_links" (Pydantic.boolField m "include_links" false))
                (Pydantic.vtag "include_app_metas" (Pydantic.boolField m "include_app_metas" false))))))))
    (Sbb.limit_tag_error h1 h2)
  obtain ⟨e4, h4, m4⟩ := Pydantic.vpair_error_right_mem
    (r := Pydantic.vtag "order_by" (Pydantic.optStrField m "order_by")) h5
  obtain ⟨e3, h3, m3⟩ := Pydantic.vpair_error_right_mem
    (r := Pydantic.vtag "group_by" (Pydantic.optStrField m "group_by")) h4
  obtain ⟨e2, h2', m2⟩ := Pydantic.vpair_error_right_mem
    (r := Pydantic.vtag "where" (Pydantic.optStrField m "where")) h3
  exact ⟨e2, h2', m2 (m3 (m4 (m5 (List.mem_singleton.mpr rfl))))⟩

theorem Sbb.validate_limit_error_mem {m : List (String × PyVal)} {n : Int}
    (h1 : m.lookup "limit" = some (PyVal.vint n)) (h2 : n < 1 ∨ 100 < n) :
    ∃ errs, Sbb.validateTrafficInfoParams m = .error errs ∧
      ("limit", Pydantic.FieldErr.outOfRange) ∈ errs := by
  obtain ⟨e2, h2', hm⟩ := Sbb.whereChain_limit_error_mem h1 h2
  obtain ⟨e1, h1', m1⟩ := Pydantic.vpair_error_right_mem
    (r := Pydantic.vtag "select" (Pydantic.optStrField m "select")) h2'
  have hv : Sbb.validateTrafficInfoParams m = .error e1 := by
    unfold Sbb.validateTrafficInfoParams
    rw [show Sbb.trafficInfoFields m = .error e1 from h1']
  exact ⟨e1, hv, m1 hm⟩

theorem Sbb.validate_select_error_mem {m : List (String × PyVal)} {v : PyVal}
    (h1 : m.lookup "select" = some v) (h2 : PyVal.isStrOrNone v = false) :
    ∃ errs, Sbb.validateTrafficInfoParams m = .error errs ∧
      ("select", Pydantic.FieldErr.wrongType) ∈ errs := by
  obtain ⟨e1, h1', m1⟩ := Pydantic.vpair_error_left_mem
    (s := Pydantic.vpair (Pydantic.vtag "where" (Pydantic.optStrField m "where"))
      (Pydantic.vpair (Pydantic.vtag "group_by" (Pydantic.optStrField m "group_by"))
        (Pydantic.vpair (Pydantic.vtag "order_by" (Pydantic.optStrField m "order_by"))
          (Pydantic.vpair (Pydantic.vtag "limit" (Pydantic.intField m "limit" 10 Sbb.limitCheck))
            (Pydantic.vpair (Pydantic.vtag "offset" (Pydantic.intField m "offset" 0 Sbb.offsetCheck))
              (Pydantic.vpair (Pydantic.vtag "refine" (Pydantic.optStrField m "refine"))
                (Pydantic.vpair (Pydantic.vtag "exclude" (Pydantic.optStrField m "exclude"))
                  (Pydantic.vpair (Pydantic.vtag "lang" (Pydantic.optStrField m "lang"))
                    (Pydantic.vpair (Pydantic.vtag "timezone" (Pydantic.strField m "timezone" "UTC"))
                      (Pydantic.vpair (Pydantic.vtag "include_links" (Pydantic.boolField m "include_links" false))
                        (Pydantic.vtag "include_app_metas" (Pydantic.boolField m "include_app_metas" false))))))))))))
    (Sbb.select_tag_error h1 h2)
  have hv : Sbb.validateTrafficInfoParams m = .error e1 := by
    unfold Sbb.validateTrafficInfoParams
    rw [show Sbb.trafficInfoFields m = .error e1 from h1']
  exact ⟨e1, hv, m1 (List.mem_singleton.mpr rfl)⟩

theorem Sbb.validate_both_error_mem {m : List (String × PyVal)} {n : Int} {v : PyVal}
    (hl1 : m.lookup "limit" = some (PyVal.vint n)) (hl2 : n < 1 ∨ 100 < n)
    (hs1 : m.lookup "select" = some v) (hs2 : PyVal.isStrOrNone v = false) :
    ∃ errs, Sbb.validateTrafficInfoParams m = .error errs ∧
      ("select", Pydantic.FieldErr.wrongType) ∈ errs ∧
      ("limit", Pydantic.FieldErr.outOfRange) ∈ errs := by
  obtain ⟨e2, h2', hm⟩ := Sbb.whereChain_limit_error_mem hl1 hl2
  have hcomb : Sbb.trafficInfoFields m =
      .error ([("select", Pydantic.FieldErr.wrongType)] ++ e2) := by
    unfold Sbb.trafficInfoFields
    rw [Sbb.select_tag_error hs1 hs2, h2']
    rfl
  refine ⟨[("select", Pydantic.FieldErr.wrongType)] ++ e2, ?_, ?_, ?_⟩
  · unfold Sbb.validateTrafficInfoParams
    rw [hcomb]
  · exact List.mem_append.mpr (Or.inl (List.mem_singleton.mpr rfl))
  · exact List.mem_append.mpr (Or.inr hm)

theorem Transit.parseList_roundtrip (p : Transit.Json → Except String α)
    (f : α → Transit.Json) (h : ∀ a, p (f a) = .ok a) :
    ∀ xs : List α, Transit.parseList p (xs.map f) = .ok xs
  | [] => rfl
  | x :: xs => by
    simp [Transit.parseList, h x, Transit.parseList_roundtrip p f h xs]

theorem Transit.parseLocation_roundtrip (l : Transit.Location) :
    Transit.parseLocation (Transit.locationToJson l) = .ok l := rfl

theorem Transit.parseStop_roundtrip (s : Transit.Stop) :
    Transit.parseStop (Transit.stopToJson s) = .ok s := by
  obtain ⟨st, arr, dep, del⟩ := s
  cases arr <;> cases dep <;> cases del <;> rfl

theorem Transit.parseDeparture_roundtrip (d : Transit.Departure) :
    Transit.parseDeparture (Transit.departureToJson d) = .ok d := rfl

theorem Transit.parseArrival_roundtrip (a : Transit.Arrival) :
    Transit.parseArrival (Transit.arrivalToJson a) = .ok a := rfl

theorem Transit.parseRoute_roundtrip (r : Transit.Route) :
    Transit.parseRoute (Transit.routeToJson r) = .ok r := by
  obtain ⟨n, c, nb, op, t, pl⟩ := r
  have h := Transit.parseList_roundtrip Transit.parseStop Transit.stopToJson
    Transit.parseStop_roundtrip pl
  calc Transit.parseRoute (Transit.routeToJson ⟨n, c, nb, op, t, pl⟩)
      = Except.bind (Transit.parseList Transit.parseStop (pl.map Transit.stopToJson))
          (fun ps => Except.ok (⟨n, c, nb, op, t, ps⟩ : Transit.Route)) := rfl
    _ = .ok ⟨n, c, nb, op, t, pl⟩ := by rw [h]; rfl

theorem Transit.parseTransitOption_roundtrip (t : Transit.TransitOption) :
    Transit.parseTransitOption (Transit.transitOptionToJson t) = .ok t := by
  obtain ⟨j⟩ := t
  calc Transit.parseTransitOption (Transit.transitOptionToJson ⟨j⟩)
      = Except.bind (Transit.parseRoute (Transit.routeToJson j))
          (fun r => Except.ok (⟨r⟩ : Transit.TransitOption)) := rfl
    _ = .ok ⟨j⟩ := by rw [Transit.parseRoute_roundtrip j]; rfl

theorem Transit.parsePublicTransitResult_roundtrip (r : Transit.PublicTransitResult) :
    Transit.parsePublicTransitResult (Transit.publicTransitResultToJson r) = .ok r := by
  obtain ⟨st, t, d, tr, sec⟩ := r
  have hsec := Transit.parseList_roundtrip Transit.parseTransitOption
    Transit.transitOptionToJson Transit.parseTransitOption_roundtrip sec
  calc Transit.parsePublicTransitResult
        (Transit.publicTransitResultToJson ⟨st, t, d, tr, sec⟩)
      = Except.bind (Transit.parseList Transit.parseTransitOption
            (sec.map Transit.transitOptionToJson))
          (fun xs => Except.ok (⟨st, t, d, tr, xs⟩ : Transit.PublicTransitResult)) := rfl
    _ = .ok ⟨st, t, d, tr, sec⟩ := by rw [hsec]; rfl

theorem Transit.parseResponse_roundtrip (r : Transit.Public_TransitResponse) :
    Transit.parsePublic_TransitResponse (Transit.responseToJson r) = .ok r := by
  obtain ⟨cs⟩ := r
  have h := Transit.parseList_roundtrip Transit.parsePublicTransitResult
    Transit.publicTransitResultToJson Transit.parsePublicTransitResult_roundtrip cs
  calc Transit.parsePublic_TransitResponse (Transit.responseToJson ⟨cs⟩)
      = Except.bind (Transit.parseList Transit.parsePublicTransitResult
            (cs.map Transit.publicTransitResultToJson))
          (fun xs => Except.ok (⟨xs⟩ : Transit.Public_TransitResponse)) := rfl
    _ = .ok ⟨cs⟩ := by rw [h]; rfl

/-- C1: on the synthetic three-page sequence where the first two pages carry a
`next` cursor and the third omits it, the emissions `fetch_endpoint_data` loop
terminates after exactly three HTTP GET calls, each page being validated once;
but the value returned is the list of the three pages' `("data", items)` field
pairs — because `all_data.extend(EndpointResponse(**data))` iterates the pydantic
model, yielding `(field, value)` tuples — and not the concatenation of the three
pages' result items that the function's own docstring and return annotation
promise. -/
theorem c1_emissions_pagination_eval :
    Emissions.fetch_endpoint_data Emissions.server3 {} 3 =
      some ([("data", [Emissions.item 1, Emissions.item 2]),
             ("data", [Emissions.item 3]),
             ("data", [Emissions.item 4])], 3) := by
  decide

/-- C2 counterexample: constructing `TrafficInfoParams` from a mapping that
contains only the unknown key `bogus` does not fail — pydantic silently ignores
unknown keys by default — contradicting the claim that such a construction
raises a `ValidationError`. -/
theorem c2_unknown_key_counterexample :
    Sbb.validateTrafficInfoParams [("bogus", PyVal.vint 1)] = .ok {} := by
  rfl

/-- C2 (amended): pydantic construction of `TrafficInfoParams` is all-or-nothing
and fails closed on constraint and type violations — whenever it succeeds every
constrained field satisfies its declared bound (`limit` in 1..100, `offset`
nonnegative) and no partial object exists; an out-of-range integer `limit` fails
with a `ValidationError` naming `limit` as out of range; a wrongly-typed
(non-string, non-`None`) value for an optional string field such as `select`
fails naming `select` as wrongly typed; and when both are violated the single
`ValidationError`'s list enumerates both fields.  However, mappings containing
unknown keys do not fail (pydantic default `extra='ignore'` drops them
silently), and integer-shaped strings are coerced to ints in lax mode, e.g.
`{"limit": "17"}` validates with `limit = 17`. -/
theorem c2_validation_amended :
    (∀ (m : List (String × PyVal)) (p : Sbb.TrafficInfoParams),
      Sbb.validateTrafficInfoParams m = .ok p →
        (1 ≤ p.limit ∧ p.limit ≤ 100) ∧ 0 ≤ p.offset) ∧
    (∀ (m : List (String × PyVal)) (n : Int),
      m.lookup "limit" = some (PyVal.vint n) → n < 1 ∨ 100 < n →
        ∃ errs, Sbb.validateTrafficInfoParams m = .error errs ∧
          ("limit", Pydantic.FieldErr.outOfRange) ∈ errs) ∧
    (∀ (m : List (String × PyVal)) (v : PyVal),
      m.lookup "select" = some v → PyVal.isStrOrNone v = false →
        ∃ errs, Sbb.validateTrafficInfoParams m = .error errs ∧
          ("select", Pydantic.FieldErr.wrongType) ∈ errs) ∧
    (∀ (m : List (String × PyVal)) (n : Int) (v : PyVal),
      m.lookup "limit" = some (PyVal.vint n) → n < 1 ∨ 100 < n →
      m.lookup "select" = some v → PyVal.isStrOrNone v = false →
        ∃ errs, Sbb.validateTrafficInfoParams m = .error errs ∧
          ("select", Pydantic.FieldErr.wrongType) ∈ errs ∧
          ("limit", Pydantic.FieldErr.outOfRange) ∈ errs) ∧
    Sbb.validateTrafficInfoParams [("limit", PyVal.vstr "17")] = .ok { limit := 17 } := by
  refine ⟨?_, ?_, ?_, ?_, ?_⟩
  · intro m p h
    exact Sbb.validate_ok_bounds h
  · intro m n h1 h2
    exact Sbb.validate_limit_error_mem h1 h2
  · intro m v h1 h2
    exact Sbb.validate_select_error_mem h1 h2
  · intro m n v hl1 hl2 hs1 hs2
    exact Sbb.validate_both_error_mem hl1 hl2 hs1 hs2
  · rfl

/-- C2 witness: at `{"limit": 42}` validation succeeds and the bounds hold; at
`{"limit": 0}` validation fails naming `limit` out of range; at
`{"select": True}` validation fails naming `select` wrongly typed; and at
`{"select": True, "limit": 0}` the one error list enumerates both fields. -/
theorem c2_validation_witness :
    ((1 ≤ Sbb.TrafficInfoParams.limit { limit := 42 } ∧
        Sbb.TrafficInfoParams.limit { limit := 42 } ≤ 100) ∧
      0 ≤ Sbb.TrafficInfoParams.offset { limit := 42 }) ∧
    (∃ errs, Sbb.validateTrafficInfoParams [("limit", PyVal.vint 0)] = .error errs ∧
      ("limit", Pydantic.FieldErr.outOfRange) ∈ errs) ∧
    (∃ errs, Sbb.validateTrafficInfoParams [("select", PyVal.vbool true)] = .error errs ∧
      ("select", Pydantic.FieldErr.wrongType) ∈ errs) ∧
    (∃ errs, Sbb.validateTrafficInfoParams
        [("select", PyVal.vbool true), ("limit", PyVal.vint 0)] = .error errs ∧
      ("select", Pydantic.FieldErr.wrongType) ∈ errs ∧
      ("limit", Pydantic.FieldErr.outOfRange) ∈ errs) :=
  ⟨c2_validation_amended.1 [("limit", PyVal.vint 42)] { limit := 42 } (by rfl),
   c2_validation_amended.2.1 [("limit", PyVal.vint 0)] 0 rfl (Or.inl (by decide)),
   c2_validation_amended.2.2.1 [("select", PyVal.vbool true)] (PyVal.vbool true) rfl rfl,
   c2_validation_amended.2.2.2.1 [("select", PyVal.vbool true), ("limit", PyVal.vint 0)] 0
     (PyVal.vbool true) rfl (Or.inl (by decide)) rfl rfl⟩

/-- C3: the claim says every registered handler treats `arguments = None` as an
empty mapping.  `handle_rail_traffic_info` does not: it unpacks `**arguments`
directly, so `None` raises `TypeError` with zero HTTP requests issued, whereas
the same handler called with an explicit empty mapping validates the defaults
and issues its fetch (one request, one text content item). -/
theorem c3_none_arguments_eval :
    Sbb.handle_rail_traffic_info Sbb.mockResponse none = (.error .typeErr, []) ∧
    (Sbb.handle_rail_traffic_info Sbb.mockResponse (some [])).2.length = 1 ∧
    (Sbb.handle_rail_traffic_info Sbb.mockResponse (some [])).1 =
      .ok [{ text := Sbb.renderTrafficInfoResponse Sbb.mockResponse }] := by
  exact ⟨rfl, rfl, rfl⟩

/-- C4: for every argument mapping whose `limit` value is an integer outside
1..100, pydantic validation fails, the handler raises, and zero outbound HTTP
requests are made. -/
theorem c4_out_of_range_limit (m : List (String × PyVal)) (n : Int)
    (h1 : m.lookup "limit" = some (PyVal.vint n)) (h2 : n < 1 ∨ 100 < n) :
    (∃ e, (Sbb.handle_rail_traffic_info Sbb.mockResponse (some m)).1 =
      .error (.validationErr e)) ∧
    (Sbb.handle_rail_traffic_info Sbb.mockResponse (some m)).2 = [] := by
  obtain ⟨e, he⟩ := Sbb.trafficInfoFields_limit_error h1 h2
  have hv : Sbb.validateTrafficInfoParams m = .error e := by
    unfold Sbb.validateTrafficInfoParams
    rw [he]
  constructor
  · exact ⟨e, by simp [Sbb.handle_rail_traffic_info, hv]⟩
  · simp [Sbb.handle_rail_traffic_info, hv]

/-- C4 witness: the mapping `{"limit": 0}` makes the handler fail with a
validation error and issue zero HTTP requests. -/
theorem c4_out_of_range_limit_witness :
    (∃ e, (Sbb.handle_rail_traffic_info Sbb.mockResponse
      (some [("limit", PyVal.vint 0)])).1 = .error (.validationErr e)) ∧
    (Sbb.handle_rail_traffic_info Sbb.mockResponse
      (some [("limit", PyVal.vint 0)])).2 = [] :=
  c4_out_of_range_limit [("limit", PyVal.vint 0)] 0 rfl (Or.inl (by decide))

theorem Personal.noSpace_encodeSpaces (s : String) :
    spaceChar ∉ (Personal.encodeSpaces s).data := by
  show spaceChar ∉ s.data.foldr
    (fun c acc => if c = spaceChar then '%' :: '2' :: '0' :: acc else c :: acc) []
  induction s.data with
  | nil => simp
  | cons c cs ih =>
    simp only [List.foldr_cons]
    by_cases hc : c = spaceChar
    · subst hc
      simp only [if_pos rfl]
      intro hmem
      rcases List.mem_cons.mp hmem with h | hmem
      · exact absurd h (by decide)
      rcases List.mem_cons.mp hmem with h | hmem
      · exact absurd h (by decide)
      rcases List.mem_cons.mp hmem with h | hmem
      · exact absurd h (by decide)
      · exact ih hmem
    · simp only [if_neg hc]
      intro hmem
      rcases List.mem_cons.mp hmem with h | hmem
      · exact hc h.symm
      · exact ih hmem

theorem Personal.noSpace_append {a b : String} (ha : spaceChar ∉ a.data)
    (hb : spaceChar ∉ b.data) : spaceChar ∉ (a ++ b).data := by
  rw [String.data_append, List.mem_append]
  rintro (h | h)
  · exact ha h
  · exact hb h

theorem Personal.noSpace_frag (pre mid : String) (hpre : spaceChar ∉ pre.data) :
    spaceChar ∉ ((pre ++ Personal.encodeSpaces mid) ++ "&").data :=
  Personal.noSpace_append (Personal.noSpace_append hpre (Personal.noSpace_encodeSpaces mid))
    (by decide)

theorem Personal.noSpace_queryItem (k : String) (v : Personal.DumpVal)
    (hk : spaceChar ∉ k.data) : ∀ s ∈ Personal.queryItem (k, v), spaceChar ∉ s.data := by
  cases v with
  | dlist xs =>
    intro s hs
    obtain ⟨it, -, rfl⟩ := List.mem_map.mp hs
    exact Personal.noSpace_frag (k ++ "[]=") it (Personal.noSpace_append hk (by decide))
  | dstr s0 =>
    intro s hs
    obtain rfl : s = k ++ "=" ++ Personal.encodeSpaces s0 ++ "&" := List.mem_singleton.mp hs
    exact Personal.noSpace_frag (k ++ "=") s0 (Personal.noSpace_append hk (by decide))
  | dint n =>
    intro s hs
    obtain rfl : s = k ++ "=" ++ Personal.encodeSpaces (toString n) ++ "&" :=
      List.mem_singleton.mp hs
    exact Personal.noSpace_frag (k ++ "=") (toString n) (Personal.noSpace_append hk (by decide))

theorem Personal.optEntry_key {name : String} {f : α → Personal.DumpVal} {v : Option α}
    {kv : String × Personal.DumpVal} (h : kv ∈ Personal.optEntry name f v) : kv.1 = name := by
  cases v with
  | none => cases h
  | some x =>
    cases h with
    | head => rfl
    | tail _ h => cases h

theorem Personal.noSpace_querySegments (p : Personal.EndpointParams) :
    ∀ s ∈ Personal.querySegments p, spaceChar ∉ s.data := by
  intro s hs
  unfold Personal.querySegments at hs
  rw [List.mem_flatMap] at hs
  obtain ⟨⟨k, v⟩, hkv, hs⟩ := hs
  have hk : spaceChar ∉ k.data := by
    unfold Personal.model_dump at hkv
    simp only [List.mem_append] at hkv
    rcases hkv with ((((((((((h | h) | h) | h) | h) | h) | h) | h) | h) | h) | h) <;>
      (rw [show k = _ from Personal.optEntry_key h]; decide)
  exact Personal.noSpace_queryItem k v hk s hs

theorem Personal.noSpace_foldl (l : List String) (acc : String)
    (hacc : spaceChar ∉ acc.data) (h : ∀ s ∈ l, spaceChar ∉ s.data) :
    spaceChar ∉ (l.foldl (fun a s => a ++ s) acc).data := by
  induction l generalizing acc with
  | nil => simpa using hacc
  | cons s ss ih =>
    simp only [List.foldl_cons]
    exact ih (acc ++ s) (Personal.noSpace_append hacc (h s (by simp)))
      (fun t ht => h t (by simp [ht]))

theorem Personal.not_prefix_concat {p fixed : List Char}
    (h1 : ¬ p <+: fixed) (h2 : ¬ fixed <+: p) (var : List Char) :
    ¬ p <+: (fixed ++ var) := by
  intro h
  rcases List.prefix_or_prefix_of_prefix h (List.prefix_append fixed var) with h' | h'
  · exact h1 h'
  · exact h2 h'

theorem Personal.segHasKey_self (k mid tail : String) :
    Personal.segHasKey k (k ++ "[]=" ++ mid ++ tail) = true := by
  unfold Personal.segHasKey
  have hd : (k ++ "[]=" ++ mid ++ tail).data
      = (k ++ "[]=").data ++ (mid.data ++ tail.data) := by
    rw [String.data_append, String.data_append, List.append_assoc]
  rw [hd, List.isPrefixOf_iff_prefix]
  exact List.prefix_append _ _

theorem Personal.segHasKey_false (k pre mid tail : String)
    (h1 : ¬ (k ++ "[]=").data <+: pre.data) (h2 : ¬ pre.data <+: (k ++ "[]=").data) :
    Personal.segHasKey k (pre ++ mid ++ tail) = false := by
  unfold Personal.segHasKey
  apply Bool.eq_false_iff.mpr
  have hd : (pre ++ mid ++ tail).data = pre.data ++ (mid.data ++ tail.data) := by
    rw [String.data_append, String.data_append, List.append_assoc]
  rw [hd]
  intro hcontra
  rw [List.isPrefixOf_iff_prefix] at hcontra
  exact Personal.not_prefix_concat h1 h2 _ hcontra

theorem Personal.not_prefix_of_isPrefixOf_false {l1 l2 : List Char}
    (h : l1.isPrefixOf l2 = false) : ¬ l1 <+: l2 := by
  rw [← List.isPrefixOf_iff_prefix, h]
  exact Bool.false_ne_true

theorem Personal.countP_list_self (k : String) (v : Option (List String)) :
    ((Personal.optEntry k Personal.DumpVal.dlist v).flatMap Personal.queryItem).countP
      (Personal.segHasKey k) = (v.getD []).length := by
  cases v with
  | none => rfl
  | some xs =>
    have hall : ∀ s ∈ xs.map (fun it => k ++ "[]=" ++ Personal.encodeSpaces it ++ "&"),
        Personal.segHasKey k s = true := by
      intro s hs
      obtain ⟨it, -, rfl⟩ := List.mem_map.mp hs
      exact Personal.segHasKey_self k (Personal.encodeSpaces it) "&"
    show (Personal.queryItem (k, Personal.DumpVal.dlist xs) ++ []).countP
        (Personal.segHasKey k) = xs.length
    rw [List.append_nil]
    rw [show Personal.queryItem (k, Personal.DumpVal.dlist xs)
        = xs.map (fun it => k ++ "[]=" ++ Personal.encodeSpaces it ++ "&") from rfl]
    rw [List.countP_eq_length.mpr hall, List.length_map]

theorem Personal.countP_list_ne (k k2 : String)
    (h1 : (k ++ "[]=").data.isPrefixOf ((k2 ++ "[]=").data) = false)
    (h2 : (k2 ++ "[]=").data.isPrefixOf ((k ++ "[]=").data) = false)
    (v : Option (List String)) :
    ((Personal.optEntry k2 Personal.DumpVal.dlist v).flatMap Personal.queryItem).countP
      (Personal.segHasKey k) = 0 := by
  cases v with
  | none => rfl
  | some xs =>
    apply List.countP_eq_zero.mpr
    intro s hs
    rw [List.mem_flatMap] at hs
    obtain ⟨kv, hkv, hs⟩ := hs
    obtain rfl : kv = (k2, Personal.DumpVal.dlist xs) := List.mem_singleton.mp hkv
    obtain ⟨it, -, rfl⟩ := List.mem_map.mp hs
    simp [ Personal.segHasKey_false k (k2 ++ "[]=") (Personal.encodeSpaces it) "&"
      (Personal.not_prefix_of_isPrefixOf_false h1)
      (Personal.not_prefix_of_isPrefixOf_false h2)]

theorem Personal.countP_scalar_str_ne (k k2 : String)
    (h1 : (k ++ "[]=").data.isPrefixOf ((k2 ++ "=").data) = false)
    (h2 : (k2 ++ "=").data.isPrefixOf ((k ++ "[]=").data) = false)
    (v : Option String) :
    ((Personal.optEntry k2 Personal.DumpVal.dstr v).flatMap Personal.queryItem).countP
      (Personal.segHasKey k) = 0 := by
  cases v with
  | none => rfl
  | some s0 =>
    apply List.countP_eq_zero.mpr
    intro s hs
    rw [List.mem_flatMap] at hs
    obtain ⟨kv, hkv, hs⟩ := hs
    obtain rfl : kv = (k2, Personal.DumpVal.dstr s0) := List.mem_singleton.mp hkv
    obtain rfl : s = k2 ++ "=" ++ Personal.encodeSpaces s0 ++ "&" := List.mem_singleton.mp hs
    simp [ Personal.segHasKey_false k (k2 ++ "=") (Personal.encodeSpaces s0) "&"
      (Personal.not_prefix_of_isPrefixOf_false h1)
      (Personal.not_prefix_of_isPrefixOf_false h2)]

theorem Personal.countP_scalar_int_ne (k k2 : String)
    (h1 : (k ++ "[]=").data.isPrefixOf ((k2 ++ "=").data) = false)
    (h2 : (k2 ++ "=").data.isPrefixOf ((k ++ "[]=").data) = false)
    (v : Option Int) :
    ((Personal.optEntry k2 Personal.DumpVal.dint v).flatMap Personal.queryItem).countP
      (Personal.segHasKey k) = 0 := by
  cases v with
  | none => rfl
  | some n =>
    apply List.countP_eq_zero.mpr
    intro s hs
    rw [List.mem_flatMap] at hs
    obtain ⟨kv, hkv, hs⟩ := hs
    obtain rfl : kv = (k2, Personal.DumpVal.dint n) := List.mem_singleton.mp hkv
    obtain rfl : s = k2 ++ "=" ++ Personal.encodeSpaces (toString n) ++ "&" :=
      List.mem_singleton.mp hs
    simp [ Personal.segHasKey_false k (k2 ++ "=") (Personal.encodeSpaces (toString n)) "&"
      (Personal.not_prefix_of_isPrefixOf_false h1)
      (Personal.not_prefix_of_isPrefixOf_false h2)]

/-- C5 counterexample: the endpoint the transit fetch constructs for
`{"origin": "Zürich", "to": "Basel"}` carries the two field values verbatim and
differs from the URL with the values percent-encoded that the claim describes —
the module performs no URL encoding at all. -/
theorem c5_encoding_counterexample :
    Transit.transitEndpoint { origin := "Zürich", «to» := some "Basel" } ≠
      Transit.BASE_URL ++ "from=" ++ Transit.specUrlEncode "Zürich" ++ "&to=" ++
        Transit.specUrlEncode "Basel" := by
  decide

/-- C5 (amended): calling the transit handler with
`{"origin": "Zürich", "to": "Basel"}` issues exactly one GET whose URL is the
base URL with the two values interpolated verbatim (unencoded by the module;
any escaping is left to the HTTP client library), and on a well-formed mocked
response it returns a one-element sequence whose single text item is the
`str()` rendering of the parsed connections list. -/
theorem c5_transit_amended :
    Transit.handle_transitdata (Transit.Json.jobj [("connections", Transit.Json.jarr [])])
      (some [("origin", PyVal.vstr "Zürich"), ("to", PyVal.vstr "Basel")]) =
    (.ok [{ text := "connections=[]" }],
     [{ method := "GET",
        url := "http://transport.opendata.ch/v1/connections?from=Zürich&to=Basel" }]) := by
  rfl

/-- C6: a JSON object exactly matching the transit Response Schema parses back
to the object whose fields equal the input JSON's fields (round trip), and a
JSON object missing the required `connections` field fails with a parse error
naming that field. -/
theorem c6_transit_round_trip :
    (∀ r : Transit.Public_TransitResponse,
      Transit.parsePublic_TransitResponse (Transit.responseToJson r) = .ok r) ∧
    (∀ kvs : List (String × Transit.Json), kvs.lookup "connections" = none →
      Transit.parsePublic_TransitResponse (Transit.Json.jobj kvs) = .error "connections") := by
  constructor
  · exact Transit.parseResponse_roundtrip
  · intro kvs h
    simp only [Transit.parsePublic_TransitResponse, Transit.jListF, h]
    rfl

/-- C6 witness: the fully nested sample response round-trips, and the empty
JSON object (no `connections` key) is rejected naming `connections`. -/
theorem c6_transit_round_trip_witness :
    Transit.parsePublic_TransitResponse (Transit.responseToJson Transit.sampleResponse) =
      .ok Transit.sampleResponse ∧
    Transit.parsePublic_TransitResponse (Transit.Json.jobj []) = .error "connections" :=
  ⟨c6_transit_round_trip.1 Transit.sampleResponse, c6_transit_round_trip.2 [] rfl⟩

/-- C7: the people-search query-string construction is deterministic — it is a
pure function of the validated parameter object, so evaluating it twice yields
byte-identical strings — and its output contains no space character: every
space in a rendered value has been replaced by `%20`. -/
theorem c7_query_deterministic_no_space (p : Personal.EndpointParams) :
    Personal.query_string p = Personal.query_string p ∧
    spaceChar ∉ (Personal.query_string p).data := by
  refine ⟨rfl, ?_⟩
  exact Personal.noSpace_foldl (Personal.querySegments p) "" (by decide)
    (Personal.noSpace_querySegments p)

/-- C8: each list-valued field of the people-search parameters with `n`
elements contributes exactly `n` fragments carrying its repeated `field[]=` key
to the constructed query string, and a field that is absent or an empty list
contributes no such fragment: the count of fragments bearing each field's
`field[]=` prefix equals that field's list length. -/
theorem c8_list_fields_repeat_keys (p : Personal.EndpointParams) :
    (Personal.querySegments p).countP (Personal.segHasKey "person_titles") =
      (p.person_titles.getD []).length ∧
    (Personal.querySegments p).countP (Personal.segHasKey "person_locations") =
      (p.person_locations.getD []).length ∧
    (Personal.querySegments p).countP (Personal.segHasKey "person_seniorities") =
      (p.person_seniorities.getD []).length ∧
    (Personal.querySegments p).countP (Personal.segHasKey "organization_locations") =
      (p.organization_locations.getD []).length ∧
    (Personal.querySegments p).countP (Personal.segHasKey "q_organization_domains") =
      (p.q_organization_domains.getD []).length ∧
    (Personal.querySegments p).countP (Personal.segHasKey "contact_email_status") =
      (p.contact_email_status.getD []).length ∧
    (Personal.querySegments p).countP (Personal.segHasKey "organization_ids") =
      (p.organization_ids.getD []).length ∧
    (Personal.querySegments p).countP (Personal.segHasKey "organization_num_employees_ranges") =
      (p.organization_num_employees_ranges.getD []).length := by
  refine ⟨?_, ?_, ?_, ?_, ?_, ?_, ?_, ?_⟩
  · unfold Personal.querySegments Personal.model_dump
    simp only [List.flatMap_append, List.countP_append]
    rw [Personal.countP_list_self "person_titles",
      Personal.countP_list_ne "person_titles" "person_locations" (by decide) (by decide),
      Personal.countP_list_ne "person_titles" "person_seniorities" (by decide) (by decide),
      Personal.countP_list_ne "person_titles" "organization_locations" (by decide) (by decide),
      Personal.countP_list_ne "person_titles" "q_organization_domains" (by decide) (by decide),
      Personal.countP_list_ne "person_titles" "contact_email_status" (by decide) (by decide),
      Personal.countP_list_ne "person_titles" "organization_ids" (by decide) (by decide),
      Personal.countP_list_ne "person_titles" "organization_num_employees_ranges" (by decide) (by decide),
      Personal.countP_scalar_str_ne "person_titles" "q_keywords" (by decide) (by decide),
      Personal.countP_scalar_int_ne "person_titles" "page" (by decide) (by decide),
      Personal.countP_scalar_int_ne "person_titles" "per_page" (by decide) (by decide)]
    simp
  · unfold Personal.querySegments Personal.model_dump
    simp only [List.flatMap_append, List.countP_append]
    rw [Personal.countP_list_self "person_locations",
      Personal.countP_list_ne "person_locations" "person_titles" (by decide) (by decide),
      Personal.countP_list_ne "person_locations" "person_seniorities" (by decide) (by decide),
      Personal.countP_list_ne "person_locations" "organization_locations" (by decide) (by decide),
      Personal.countP_list_ne "person_locations" "q_organization_domains" (by decide) (by decide),
      Personal.countP_list_ne "person_locations" "contact_email_status" (by decide) (by decide),
      Personal.countP_list_ne "person_locations" "organization_ids" (by decide) (by decide),
      Personal.countP_list_ne "person_locations" "organization_num_employees_ranges" (by decide) (by decide),
      Personal.countP_scalar_str_ne "person_locations" "q_keywords" (by decide) (by decide),
      Personal.countP_scalar_int_ne "person_locations" "page" (by decide) (by decide),
      Personal.countP_scalar_int_ne "person_locations" "per_page" (by decide) (by decide)]
    simp
  · unfold Personal.querySegments Personal.model_dump
    simp only [List.flatMap_append, List.countP_append]
    rw [Personal.countP_list_self "person_seniorities",
      Personal.countP_list_ne "person_seniorities" "person_titles" (by decide) (by decide),
      Personal.countP_list_ne "person_seniorities" "person_locations" (by decide) (by decide),
      Personal.countP_list_ne "person_seniorities" "organization_locations" (by decide) (by decide),
      Personal.countP_list_ne "person_seniorities" "q_organization_domains" (by decide) (by decide),
      Personal.countP_list_ne "person_seniorities" "contact_email_status" (by decide) (by decide),
      Personal.countP_list_ne "person_seniorities" "organization_ids" (by decide) (by decide),
      Personal.countP_list_ne "person_seniorities" "organization_num_employees_ranges" (by decide) (by decide),
      Personal.countP_scalar_str_ne "person_seniorities" "q_keywords" (by decide) (by decide),
      Personal.countP_scalar_int_ne "person_seniorities" "page" (by decide) (by decide),
      Personal.countP_scalar_int_ne "person_seniorities" "per_page" (by decide) (by decide)]
    simp
  · unfold Personal.querySegments Personal.model_dump
    simp only [List.flatMap_append, List.countP_append]
    rw [Personal.countP_list_self "organization_locations",
      Personal.countP_list_ne "organization_locations" "person_titles" (by decide) (by decide),
      Personal.countP_list_ne "organization_locations" "person_locations" (by decide) (by decide),
      Personal.countP_list_ne "organization_locations" "person_seniorities" (by decide) (by decide),
      Personal.countP_list_ne "organization_locations" "q_organization_domains" (by decide) (by decide),
      Personal.countP_list_ne "organization_locations" "contact_email_status" (by decide) (by decide),
      Personal.countP_list_ne "organization_locations" "organization_ids" (by decide) (by decide),
      Personal.countP_list_ne "organization_locations" "organization_num_employees_ranges" (by decide) (by decide),
      Personal.countP_scalar_str_ne "organization_locations" "q_keywords" (by decide) (by decide),
      Personal.countP_scalar_int_ne "organization_locations" "page" (by decide) (by decide),
      Personal.countP_scalar_int_ne "organization_locations" "per_page" (by decide) (by decide)]
    simp
  · unfold Personal.querySegments Personal.model_dump
    simp only [List.flatMap_append, List.countP_append]
    rw [Personal.countP_list_self "q_organization_domains",
      Personal.countP_list_ne "q_organization_domains" "person_titles" (by decide) (by decide),
      Personal.countP_list_ne "q_organization_domains" "person_locations" (by decide) (by decide),
      Personal.countP_list_ne "q_organization_domains" "person_seniorities" (by decide) (by decide),
      Personal.countP_list_ne "q_organization_domains" "organization_locations" (by decide) (by decide),
      Personal.countP_list_ne "q_organization_domains" "contact_email_status" (by decide) (by decide),
      Personal.countP_list_ne "q_organization_domains" "organization_ids" (by decide) (by decide),
      Personal.countP_list_ne "q_organization_domains" "organization_num_employees_ranges" (by decide) (by decide),
      Personal.countP_scalar_str_ne "q_organization_domains" "q_keywords" (by decide) (by decide),
      Personal.countP_scalar_int_ne "q_organization_domains" "page" (by decide) (by decide),
      Personal.countP_scalar_int_ne "q_organization_domains" "per_page" (by decide) (by decide)]
    simp
  · unfold Personal.querySegments Personal.model_dump
    simp only [List.flatMap_append, List.countP_append]
    rw [Personal.countP_list_self "contact_email_status",
      Personal.countP_list_ne "contact_email_status" "person_titles" (by decide) (by decide),
      Personal.countP_list_ne "contact_email_status" "person_locations" (by decide) (by decide),
      Personal.countP_list_ne "contact_email_status" "person_seniorities" (by decide) (by decide),
      Personal.countP_list_ne "contact_email_status" "organization_locations" (by decide) (by decide),
      Personal.countP_list_ne "contact_email_status" "q_organization_domains" (by decide) (by decide),
      Personal.countP_list_ne "contact_email_status" "organization_ids" (by decide) (by decide),
      Personal.countP_list_ne "contact_email_status" "organization_num_employees_ranges" (by decide) (by decide),
      Personal.countP_scalar_str_ne "contact_email_status" "q_keywords" (by decide) (by decide),
      Personal.countP_scalar_int_ne "contact_email_status" "page" (by decide) (by decide),
      Personal.countP_scalar_int_ne "contact_email_status" "per_page" (by decide) (by decide)]
    simp
  · unfold Personal.querySegments Personal.model_dump
    simp only [List.flatMap_append, List.countP_append]
    rw [Personal.countP_list_self "organization_ids",
      Personal.countP_list_ne "organization_ids" "person_titles" (by decide) (by decide),
      Personal.countP_list_ne "organization_ids" "person_locations" (by decide) (by decide),
      Personal.countP_list_ne "organization_ids" "person_seniorities" (by decide) (by decide),
      Personal.countP_list_ne "organization_ids" "organization_locations" (by decide) (by decide),
      Personal.countP_list_ne "organization_ids" "q_organization_domains" (by decide) (by decide),
      Personal.countP_list_ne "organization_ids" "contact_email_status" (by decide) (by decide),
      Personal.countP_list_ne "organization_ids" "organization_num_employees_ranges" (by decide) (by decide),
      Personal.countP_scalar_str_ne "organization_ids" "q_keywords" (by decide) (by decide),
      Personal.countP_scalar_int_ne "organization_ids" "page" (by decide) (by decide),
      Personal.countP_scalar_int_ne "organization_ids" "per_page" (by decide) (by decide)]
    simp
  · unfold Personal.querySegments Personal.model_dump
    simp only [List.flatMap_append, List.countP_append]
    rw [Personal.countP_list_self "organization_num_employees_ranges",
      Personal.countP_list_ne "organization_num_employees_ranges" "person_titles" (by decide) (by decide),
      Personal.countP_list_ne "organization_num_employees_ranges" "person_locations" (by decide) (by decide),
      Personal.countP_list_ne "organization_num_employees_ranges" "person_seniorities" (by decide) (by decide),
      Personal.countP_list_ne "organization_num_employees_ranges" "organization_locations" (by decide) (by decide),
      Personal.countP_list_ne "organization_num_employees_ranges" "q_organization_domains" (by decide) (by decide),
      Personal.countP_list_ne "organization_num_employees_ranges" "contact_email_status" (by decide) (by decide),
      Personal.countP_list_ne "organization_num_employees_ranges" "organization_ids" (by decide) (by decide),
      Personal.countP_scalar_str_ne "organization_num_employees_ranges" "q_keywords" (by decide) (by decide),
      Personal.countP_scalar_int_ne "organization_num_employees_ranges" "page" (by decide) (by decide),
      Personal.countP_scalar_int_ne "organization_num_employees_ranges" "per_page" (by decide) (by decide)]
    simp

/-- C9 counterexample: for a concrete validated parameter object, the single
outbound request of the people-search fetch is a POST whose body is empty and
whose URL carries the rendered parameters as a query string — the validated
request is not rendered into the HTTP request body as the claim states. -/
theorem c9_post_body_counterexample :
    (Personal.fetch_request Personal.sampleParams).body = none ∧
    (Personal.fetch_request Personal.sampleParams).url =
      Personal.BASE_URL ++ "?person_titles[]=software%20engineer" := by
  exact ⟨rfl, by decide⟩

/-- C9 (amended): for every validated parameter object the people-search fetch
issues a single POST whose request body is empty and whose URL is the base URL
with the constructed query string (trailing ampersand stripped) appended after
`?` whenever any field was rendered: the request is rendered into the URL query
string, never into the body. -/
theorem c9_post_amended (p : Personal.EndpointParams) :
    Personal.fetch_request p =
      { method := "POST",
        url := if Personal.query_string p = "" then Personal.BASE_URL
               else Personal.BASE_URL ++ "?" ++ rstripAmp (Personal.query_string p),
        body := none } := by
  unfold Personal.fetch_request Personal.endpointUrl
  exact Eq.refl _

/-- C10: two `ChargingStationParams` that agree on `test` (i.e. differ only in
`limit`) produce the identical outbound URL — the `limit` field never influences
the request — and every URL is the base URL plus the hard-coded
`maxFeatures=10`/output-format fragment plus the `test` field verbatim. -/
theorem c10_limit_noninterference :
    (∀ p q : Evcharge.ChargingStationParams, p.test = q.test →
      Evcharge.fetch_endpoint_url p = Evcharge.fetch_endpoint_url q) ∧
    (∀ p : Evcharge.ChargingStationParams,
      Evcharge.fetch_endpoint_url p =
        Evcharge.BASE_URL ++ "%3Aevse&maxFeatures=10&outputFormat=application%2Fjson"
          ++ p.test) := by
  constructor
  · intro p q h
    simp [Evcharge.fetch_endpoint_url, h]
  · intro p; rfl

/-- C10 witness: `limit = 3` and `limit = 99` with the default `test` give the
same URL. -/
theorem c10_limit_noninterference_witness :
    Evcharge.fetch_endpoint_url { limit := 3 } = Evcharge.fetch_endpoint_url { limit := 99 } :=
  c10_limit_noninterference.1 { limit := 3 } { limit := 99 } rfl
